import Mathlib

/-!
Shallow embedding of the strategy-scoring and parameter-adjustment pipeline
of `src/bybit_monitor.py` (class `BybitMonitor` and enum `TradingStrategy`).

Conventions of the embedding:
* Python floats are modelled as rationals (`ℚ`); every constant in the
  pipeline (1.2, 0.8, 0.9, 1.1, thresholds) is an exact decimal.
* The metric bags that the source stores as dictionaries have `Option ℚ`
  fields: `none` stands for a missing key (Python `dict.get` returning
  `None`), and `.getD d` models `dict.get(key, d)`.  `MarketData` is a
  plain object in the source (all fields always present), so its numeric
  fields are plain `ℚ`.
* `token_data` is the dictionary built by `get_comprehensive_token_data`:
  seven independently optional bags.
* Python's `x or d` on a float is `d` when `x` is `None` **or zero**
  (zero is falsy); the helper `orFifty` reproduces this exactly for the
  `score or 50` updates in `analyze_comprehensive_strategy`.
* `self.current_symbol` is threaded explicitly as a `symbol` argument to
  the functions that read it.
-/

/-- Market data object (`class MarketData` in the source): plain fields,
always present, defaulting to 0. -/
structure MarketData where
  volume_24h : ℚ := 0
  market_cap : ℚ := 0
  price_change_24h : ℚ := 0
  total_supply : ℚ := 0
  max_supply : Option ℚ := none
  circulating_supply : Option ℚ := none
  exchanges_listed : ℚ := 0
  price : ℚ := 0
deriving Repr, DecidableEq

/-- Social metrics dictionary: keys may be absent. -/
structure SocialMetrics where
  hype_score : Option ℚ := none
  sentiment : Option ℚ := none
  community_strength : Option ℚ := none
  growth_rate : Option ℚ := none
deriving Repr, DecidableEq

/-- DEX metrics dictionary. -/
structure DexMetrics where
  liquidity : Option ℚ := none
  holders : Option ℚ := none
  priceChange24h : Option ℚ := none
deriving Repr, DecidableEq

/-- Historical-pattern metrics dictionary. -/
structure HistoricalMetrics where
  success_rate : Option ℚ := none
  avg_roi_score : Option ℚ := none
  stability_score : Option ℚ := none
deriving Repr, DecidableEq

/-- GitHub activity dictionary. -/
structure GithubMetrics where
  commits_per_week : Option ℚ := none
  active_contributors : Option ℚ := none
deriving Repr, DecidableEq

/-- Google Trends dictionary. -/
structure TrendsMetrics where
  interest_over_time : Option ℚ := none
deriving Repr, DecidableEq

/-- Order-book analysis dictionary (only the fields the scorer reads). -/
structure OrderbookMetrics where
  depth_score : Option ℚ := none
  buy_pressure : Option ℚ := none
  volatility_risk : Option ℚ := none
deriving Repr, DecidableEq

/-- The `token_data` dictionary assembled by `get_comprehensive_token_data`:
seven independently optional metric bags. -/
structure TokenData where
  market_data : Option MarketData := none
  social_metrics : Option SocialMetrics := none
  dex_data : Option DexMetrics := none
  historical_patterns : Option HistoricalMetrics := none
  github_data : Option GithubMetrics := none
  trends_data : Option TrendsMetrics := none
  orderbook_data : Option OrderbookMetrics := none
deriving Repr, DecidableEq

/-- The three strategy presets of `enum TradingStrategy`. -/
inductive TradingStrategy where
  | AGGRESSIVE_PUMP
  | BALANCED_PUMP
  | MOMENTUM
deriving Repr, DecidableEq

/-- The parameter dictionary carried by each `TradingStrategy` member.
The base dictionaries have no `recovery_mode` key; the adjuster may add
one with value `True`, so the key is modelled as a `Bool` that is `false`
in every base preset. -/
structure StratParams where
  name : String
  hold_time : String
  take_profits : List ℚ
  stop_loss : ℚ
  leverage : ℤ
  trailing_stop : ℚ
  recovery_mode : Bool := false
deriving Repr, DecidableEq

/-- `TradingStrategy.<member>.value`: the literal base parameter
dictionaries of the enum. -/
def baseParams : TradingStrategy → StratParams
  | .AGGRESSIVE_PUMP =>
    { name := "Aggressive Pump Strategy", hold_time := "3-15 minutes",
      take_profits := [20, 30, 50], stop_loss := -8, leverage := 5,
      trailing_stop := 10 }
  | .BALANCED_PUMP =>
    { name := "Balanced Pump Strategy", hold_time := "15-45 minutes",
      take_profits := [15, 25, 40], stop_loss := -10, leverage := 3,
      trailing_stop := 15 }
  | .MOMENTUM =>
    { name := "Momentum Strategy", hold_time := "1-3 hours",
      take_profits := [30, 45, 70], stop_loss := -12, leverage := 3,
      trailing_stop := 20 }

/-- The `scores` dictionary passed from `analyze_comprehensive_strategy`
to `adjust_strategy_parameters`.  Keys are optional because the adjuster
reads them with `scores.get(key, default)`. -/
structure Scores where
  market : Option ℚ := none
  social : Option ℚ := none
  dex : Option ℚ := none
  historical : Option ℚ := none
  github : Option ℚ := none
  trends : Option ℚ := none
  orderbook : Option ℚ := none
deriving Repr, DecidableEq

/-- Substring containment on character lists: Python's `needle in hay`. -/
def listContainsSub (needle : List Char) : List Char → Bool
  | [] => needle.isEmpty
  | c :: t => needle.isPrefixOf (c :: t) || listContainsSub needle t

/-- The curated meme-token substring list (identical in
`get_hype_indicator` and `select_strategy`). -/
def meme_indicators : List String :=
  ["PEPE", "MEME", "DOGE", "SHIB", "BABY", "ELON", "MOON", "SAFE", "INU", "APE"]

/-- `any(indicator in symbol.upper() for indicator in meme_indicators)`.
Uppercasing is ASCII (`Char.toUpper`), which agrees with Python `.upper()`
on exchange ticker symbols. -/
def isMeme (symbol : String) : Bool :=
  meme_indicators.any fun ind =>
    listContainsSub ind.toList (symbol.toList.map Char.toUpper)

/-- `statistics.mean` on a nonempty list (callers guard for emptiness). -/
def listMean (l : List ℚ) : ℚ := l.sum / (l.length : ℚ)

/-- `calculate_market_score`: `None` for a missing bag, otherwise a
weighted sum of clamped components. -/
def calculate_market_score : Option MarketData → Option ℚ
  | none => none
  | some md =>
    some (min (md.market_cap / 1000000) 100 * 0.4
      + min (md.volume_24h / 100000) 100 * 0.3
      + min |md.price_change_24h| 100 * 0.2
      + min (md.exchanges_listed / 5) 20 * 0.1)

/-- `calculate_social_score`: unclamped weighted sum over `dict.get(_, 0)`
fields. -/
def calculate_social_score : Option SocialMetrics → Option ℚ
  | none => none
  | some s =>
    some (s.hype_score.getD 0 * 0.3
      + s.sentiment.getD 0 * 0.3
      + s.community_strength.getD 0 * 0.2
      + s.growth_rate.getD 0 * 0.2)

/-- `calculate_dex_score`. -/
def calculate_dex_score : Option DexMetrics → Option ℚ
  | none => none
  | some d =>
    some (min (d.liquidity.getD 0 / 100000) 100 * 0.4
      + min (d.holders.getD 0 / 1000) 100 * 0.3
      + min |d.priceChange24h.getD 0| 100 * 0.3)

/-- `calculate_historical_score`: unclamped weighted sum. -/
def calculate_historical_score : Option HistoricalMetrics → Option ℚ
  | none => none
  | some h =>
    some (h.success_rate.getD 0 * 0.4
      + h.avg_roi_score.getD 0 * 0.3
      + h.stability_score.getD 0 * 0.3)

/-- `calculate_github_score`. -/
def calculate_github_score : Option GithubMetrics → Option ℚ
  | none => none
  | some g =>
    some (min (g.commits_per_week.getD 0 / 50) 100 * 0.6
      + min (g.active_contributors.getD 0 / 20) 100 * 0.4)

/-- `calculate_trends_score`. -/
def calculate_trends_score : Option TrendsMetrics → Option ℚ
  | none => none
  | some t => some (min (t.interest_over_time.getD 0) 100)

/-- `calculate_orderbook_score`: unclamped weighted sum. -/
def calculate_orderbook_score : Option OrderbookMetrics → Option ℚ
  | none => none
  | some o =>
    some (o.depth_score.getD 0 * 0.4
      + o.buy_pressure.getD 0 * 0.4
      + (100 - o.volatility_risk.getD 0) * 0.2)

/-- `get_volatility_indicator`: mean of the available volatility signals
(market |price_change_24h|, orderbook volatility_risk, dex
|priceChange24h|), defaulting to 40 when none are available. -/
def get_volatility_indicator (td : TokenData) : ℚ :=
  let inds : List ℚ :=
    (match td.market_data with
      | some md => [|md.price_change_24h|]
      | none => []) ++
    (match td.orderbook_data with
      | some ob => match ob.volatility_risk with
        | some v => [v]
        | none => []
      | none => []) ++
    (match td.dex_data with
      | some dd => [|dd.priceChange24h.getD 0|]
      | none => [])
  if inds = [] then 40 else listMean inds

/-- `get_hype_indicator`: mean of the available hype signals (social
hype_score, trends interest_over_time, a fixed 80 appended when the symbol
matches the meme list), defaulting to 30 when none are available. -/
def get_hype_indicator (td : TokenData) (symbol : String) : ℚ :=
  let inds : List ℚ :=
    (match td.social_metrics with
      | some s => match s.hype_score with
        | some h => [h]
        | none => []
      | none => []) ++
    (match td.trends_data with
      | some t => match t.interest_over_time with
        | some i => [i]
        | none => []
      | none => []) ++
    (if isMeme symbol then [80] else [])
  if inds = [] then 30 else listMean inds

/-- Python's `x or 50` on an optional float: `50` when the value is `None`
**or equal to 0** (a float 0.0 is falsy), the value otherwise.  This is
exactly the update `scores[k] = calculate_..._score(bag) or 50`. -/
def orFifty : Option ℚ → ℚ
  | none => 50
  | some v => if v = 0 then 50 else v

/-- The `scores` dictionary as built inside `analyze_comprehensive_strategy`:
initialised to 50 everywhere and updated with `score or 50` for each bag
that is present.  (Every key is present — always `some` — matching the
dictionary literal in the source; the adjuster's `.get` defaults are thus
never taken on this value.) -/
def computeScores (td : TokenData) : Scores where
  market := some (match td.market_data with
    | none => 50
    | some _ => orFifty (calculate_market_score td.market_data))
  social := some (match td.social_metrics with
    | none => 50
    | some _ => orFifty (calculate_social_score td.social_metrics))
  dex := some (match td.dex_data with
    | none => 50
    | some _ => orFifty (calculate_dex_score td.dex_data))
  historical := some (match td.historical_patterns with
    | none => 50
    | some _ => orFifty (calculate_historical_score td.historical_patterns))
  github := some (match td.github_data with
    | none => 50
    | some _ => orFifty (calculate_github_score td.github_data))
  trends := some (match td.trends_data with
    | none => 50
    | some _ => orFifty (calculate_trends_score td.trends_data))
  orderbook := some (match td.orderbook_data with
    | none => 50
    | some _ => orFifty (calculate_orderbook_score td.orderbook_data))

/-- `total_score = sum(scores.values()) / len(scores)`: the composite
score.  (`getD 50` mirrors dictionary access; `computeScores` always
stores `some`, so the defaults are never taken.) -/
def totalScore (td : TokenData) : ℚ :=
  let s := computeScores td
  (s.market.getD 50 + s.social.getD 50 + s.dex.getD 50 + s.historical.getD 50
    + s.github.getD 50 + s.trends.getD 50 + s.orderbook.getD 50) / 7

/-- `select_strategy` (happy path): meme/volatility/hype short-circuit to
AGGRESSIVE_PUMP, otherwise classification of the weighted score. -/
def select_strategy (symbol : String) (total_score volatility hype : ℚ) :
    TradingStrategy :=
  if isMeme symbol ∨ 70 ≤ volatility ∨ 80 ≤ hype then
    .AGGRESSIVE_PUMP
  else
    let weighted_score := total_score * 0.4 + volatility * 0.3 + hype * 0.3
    if 70 ≤ weighted_score then .AGGRESSIVE_PUMP
    else if 45 ≤ weighted_score then .BALANCED_PUMP
    else .MOMENTUM

/-- The `except` handler of `select_strategy`: on any internal error the
selector guesses AGGRESSIVE_PUMP for meme symbols and otherwise falls back
to BALANCED_PUMP. -/
def select_strategy_fallback (symbol : String) : TradingStrategy :=
  if isMeme symbol then .AGGRESSIVE_PUMP else .BALANCED_PUMP

/-- `risk_score` inside `adjust_strategy_parameters`:
`scores.get('market', 50)*0.4 + scores.get('social', 50)*0.3 +
scores.get('dex', 50)*0.3`. -/
def risk_score (scores : Scores) : ℚ :=
  scores.market.getD 50 * 0.4 + scores.social.getD 50 * 0.3
    + scores.dex.getD 50 * 0.3

/-- `max_stop_loss`, the per-strategy stop-loss cap table. -/
def maxStopLoss : TradingStrategy → ℚ
  | .AGGRESSIVE_PUMP => -10
  | .BALANCED_PUMP => -12
  | .MOMENTUM => -15

/-- Body of `adjust_strategy_parameters`, taking the copied parameter
dictionary `base` (`params = strategy.value.copy()`) explicitly.  All
field updates target the copy: `take_profits` is rebound to a fresh list
and the numeric entries are overwritten in the copied dictionary, so the
original preset dictionary is never written to. -/
def adjustFrom (base : StratParams) (strategy : TradingStrategy)
    (td : TokenData) (scores : Scores) (symbol : String) : StratParams :=
  let volatility := get_volatility_indicator td
  let hype := get_hype_indicator td symbol
  let take_profits :=
    if 80 < hype then base.take_profits.map (fun x => x * 1.2)
    else if hype < 30 then base.take_profits.map (fun x => x * 0.8)
    else base.take_profits
  let stop_loss_adj :=
    if 60 < volatility then base.stop_loss * 0.9
    else if volatility < 30 then base.stop_loss * 1.1
    else base.stop_loss
  let stop_loss := max stop_loss_adj (maxStopLoss strategy)
  let leverage :=
    if risk_score scores < 40 then max 1 (base.leverage - 1)
    else if 70 < risk_score scores then min 5 (base.leverage + 1)
    else base.leverage
  let recovery_mode :=
    if 80 < scores.orderbook.getD 0 ∧ 70 < scores.market.getD 0 then true
    else base.recovery_mode
  { name := base.name, hold_time := base.hold_time,
    take_profits := take_profits, stop_loss := stop_loss,
    leverage := leverage, trailing_stop := base.trailing_stop,
    recovery_mode := recovery_mode }

/-- `adjust_strategy_parameters`: the copy is taken from the strategy's
base preset. -/
def adjust_strategy_parameters (strategy : TradingStrategy) (td : TokenData)
    (scores : Scores) (symbol : String) : StratParams :=
  adjustFrom (baseParams strategy) strategy td scores symbol

/-- The mutable store of preset dictionaries (`TradingStrategy.value` for
each member): state threaded explicitly to reason about mutation. -/
def PresetStore : Type := TradingStrategy → StratParams

/-- The store holding the literal base presets of the enum. -/
def baseStore : PresetStore := baseParams

/-- Store-passing version of `adjust_strategy_parameters`: the function
copies the stored dictionary (`strategy.value.copy()`) and all writes go
to the copy (numbers are immutable and `take_profits` is rebound, not
mutated in place), so the store comes back unchanged. -/
def adjust_strategy_parameters_st (store : PresetStore)
    (strategy : TradingStrategy) (td : TokenData) (scores : Scores)
    (symbol : String) : StratParams × PresetStore :=
  (adjustFrom (store strategy) strategy td scores symbol, store)

/-- `analyze_comprehensive_strategy` (happy path): compute the scores, the
composite, the two indicators (each re-guarded by a falsy-default `or`),
select the strategy and adjust its parameters. -/
def analyze_comprehensive_strategy (symbol : String) (td : TokenData) :
    TradingStrategy × StratParams :=
  let scores := computeScores td
  let total_score := totalScore td
  let volatility :=
    let v := get_volatility_indicator td
    if v = 0 then 40 else v
  let hype :=
    let h := get_hype_indicator td symbol
    if h = 0 then 30 else h
  let strategy := select_strategy symbol total_score volatility hype
  let params := adjust_strategy_parameters strategy td scores symbol
  (strategy, params)

/-- A token with every metric bag absent. -/
def emptyTokenData : TokenData := {}

/-- Sample token data carrying only a social hype_score of 90. -/
def tdHype90 : TokenData := { social_metrics := some { hype_score := some 90 } }

/-- Sample token data carrying only a social hype_score of 10. -/
def tdHype10 : TokenData := { social_metrics := some { hype_score := some 10 } }

/-- A market-data object with every numeric field zero. -/
def zeroMarketData : MarketData := {}

/-- A social bag whose only entry is community_strength = 100
(sub-score 20). -/
def socialCommunityOnly : SocialMetrics := { community_strength := some 100 }

/-- Token data with an all-zero market bag and the community-only social
bag; the five other bags are absent. -/
def tdMarketSocial : TokenData :=
  { market_data := some zeroMarketData, social_metrics := some socialCommunityOnly }

/-- A social bag in documented ranges with sentiment = -1 (and the other
fields 0). -/
def socialNegSentiment : SocialMetrics :=
  { hype_score := some 0, sentiment := some (-1), community_strength := some 0,
    growth_rate := some 0 }

/-- A historical bag in documented ranges with avg_roi_score = -100. -/
def histNegRoi : HistoricalMetrics :=
  { success_rate := some 0, avg_roi_score := some (-100), stability_score := some 0 }

/-- Scores dictionary whose market/social/dex entries are all 100
(risk_score 100). -/
def scoresHigh : Scores := { market := some 100, social := some 100, dex := some 100 }

/-- The adjuster's take-profit list, characterised by the hype branch over
the base preset. -/
lemma adjust_take_profits_eq (s : TradingStrategy) (td : TokenData) (sc : Scores)
    (sym : String) :
    (adjust_strategy_parameters s td sc sym).take_profits =
      if 80 < get_hype_indicator td sym then
        (baseParams s).take_profits.map (fun x => x * 1.2)
      else if get_hype_indicator td sym < 30 then
        (baseParams s).take_profits.map (fun x => x * 0.8)
      else (baseParams s).take_profits := by
  simp [adjust_strategy_parameters, adjustFrom]

/-- The adjuster's stop-loss, characterised as the clamped volatility
branch over the base preset. -/
lemma adjust_stop_loss_eq (s : TradingStrategy) (td : TokenData) (sc : Scores)
    (sym : String) :
    (adjust_strategy_parameters s td sc sym).stop_loss =
      max (if 60 < get_volatility_indicator td then (baseParams s).stop_loss * 0.9
           else if get_volatility_indicator td < 30 then (baseParams s).stop_loss * 1.1
           else (baseParams s).stop_loss)
        (maxStopLoss s) := by
  simp [adjust_strategy_parameters, adjustFrom]

/-- The adjuster's leverage, characterised by the risk-score branch over
the base preset. -/
lemma adjust_leverage_eq (s : TradingStrategy) (td : TokenData) (sc : Scores)
    (sym : String) :
    (adjust_strategy_parameters s td sc sym).leverage =
      if risk_score sc < 40 then max 1 ((baseParams s).leverage - 1)
      else if 70 < risk_score sc then min 5 ((baseParams s).leverage + 1)
      else (baseParams s).leverage := by
  simp [adjust_strategy_parameters, adjustFrom]

/-- Full run of the pipeline on an all-missing token for a non-meme
symbol: neutral defaults 50/40/30 and MOMENTUM with its base parameters. -/
lemma pipeline_all_missing (symbol : String) (hm : isMeme symbol = false) :
    totalScore emptyTokenData = 50 ∧
    get_volatility_indicator emptyTokenData = 40 ∧
    get_hype_indicator emptyTokenData symbol = 30 ∧
    analyze_comprehensive_strategy symbol emptyTokenData =
      (TradingStrategy.MOMENTUM, baseParams TradingStrategy.MOMENTUM) := by
  have hv : get_volatility_indicator emptyTokenData = 40 := by
    simp [get_volatility_indicator, emptyTokenData]
  have hh : get_hype_indicator emptyTokenData symbol = 30 := by
    simp [get_hype_indicator, emptyTokenData, hm]
  have ht : totalScore emptyTokenData = 50 := by
    norm_num [totalScore, computeScores, emptyTokenData]
  refine ⟨ht, hv, hh, ?_⟩
  simp only [analyze_comprehensive_strategy, adjust_strategy_parameters, adjustFrom,
    ht, hv, hh]
  norm_num [select_strategy, hm, risk_score, computeScores, emptyTokenData, baseParams,
    maxStopLoss]

/-- C1 counterexample: with all seven metric bags absent and the non-meme
symbol "XUSDT", the selected strategy is not BALANCED_PUMP (it is
MOMENTUM: the weighted score 0.4·50 + 0.3·40 + 0.3·30 = 41 is below the
45 threshold). -/
theorem c1_counterexample_all_missing_not_balanced :
    (analyze_comprehensive_strategy "XUSDT" emptyTokenData).1 ≠
      TradingStrategy.BALANCED_PUMP ∧
    (analyze_comprehensive_strategy "XUSDT" emptyTokenData).1 =
      TradingStrategy.MOMENTUM := by
  have h := pipeline_all_missing "XUSDT" (by decide)
  rw [h.2.2.2]
  exact ⟨by decide, rfl⟩

/-- C1 (amended): for a TokenSnapshot with all seven metric bags absent
and a symbol not matching the meme list, the composite score is exactly
50, the volatility indicator exactly 40, the hype indicator exactly 30,
and the selected strategy is MOMENTUM (weighted score 41 < 45) with that
preset's unmodified base parameters. -/
theorem c1_all_missing_neutral_defaults (symbol : String)
    (hm : isMeme symbol = false) :
    totalScore emptyTokenData = 50 ∧
    get_volatility_indicator emptyTokenData = 40 ∧
    get_hype_indicator emptyTokenData symbol = 30 ∧
    analyze_comprehensive_strategy symbol emptyTokenData =
      (TradingStrategy.MOMENTUM, baseParams TradingStrategy.MOMENTUM) :=
  pipeline_all_missing symbol hm

/-- Witness for C1 (amended) at the concrete symbol "XUSDT". -/
theorem c1_all_missing_neutral_defaults_witness :
    totalScore emptyTokenData = 50 ∧
    get_volatility_indicator emptyTokenData = 40 ∧
    get_hype_indicator emptyTokenData "XUSDT" = 30 ∧
    analyze_comprehensive_strategy "XUSDT" emptyTokenData =
      (TradingStrategy.MOMENTUM, baseParams TradingStrategy.MOMENTUM) :=
  c1_all_missing_neutral_defaults "XUSDT" (by decide)

/-- C2: any symbol containing a meme-list substring short-circuits
`select_strategy` to AGGRESSIVE_PUMP, for every combination of composite
score, volatility and hype. -/
theorem c2_meme_short_circuit (symbol : String)
    (total_score volatility hype : ℚ) (hm : isMeme symbol = true) :
    select_strategy symbol total_score volatility hype =
      TradingStrategy.AGGRESSIVE_PUMP := by
  simp [select_strategy, hm]

/-- Witness for C2 at "DOGEUSDT" with every metric tuned toward
MOMENTUM (all zero). -/
theorem c2_meme_short_circuit_witness :
    isMeme "DOGEUSDT" = true ∧
    select_strategy "DOGEUSDT" 0 0 0 = TradingStrategy.AGGRESSIVE_PUMP :=
  ⟨by decide, c2_meme_short_circuit "DOGEUSDT" 0 0 0 (by decide)⟩

/-- C8 counterexample: on the error path, the meme symbol "DOGEUSDT" is
not mapped to BALANCED_PUMP (the handler guesses AGGRESSIVE_PUMP first). -/
theorem c8_counterexample_fallback_meme :
    select_strategy_fallback "DOGEUSDT" ≠ TradingStrategy.BALANCED_PUMP ∧
    select_strategy_fallback "DOGEUSDT" = TradingStrategy.AGGRESSIVE_PUMP := by
  constructor <;> decide

/-- C8 (amended): on any internal error the selector returns
AGGRESSIVE_PUMP when the symbol matches the meme heuristic and
BALANCED_PUMP otherwise; it never returns MOMENTUM. -/
theorem c8_fallback_never_momentum (symbol : String) :
    (isMeme symbol = false →
      select_strategy_fallback symbol = TradingStrategy.BALANCED_PUMP) ∧
    (isMeme symbol = true →
      select_strategy_fallback symbol = TradingStrategy.AGGRESSIVE_PUMP) ∧
    select_strategy_fallback symbol ≠ TradingStrategy.MOMENTUM := by
  unfold select_strategy_fallback
  rcases h : isMeme symbol <;> simp [h]

/-- Witness for C8 (amended) at the non-meme symbol "XUSDT". -/
theorem c8_fallback_never_momentum_witness :
    select_strategy_fallback "XUSDT" = TradingStrategy.BALANCED_PUMP ∧
    select_strategy_fallback "XUSDT" ≠ TradingStrategy.MOMENTUM :=
  ⟨(c8_fallback_never_momentum "XUSDT").1 (by decide),
    (c8_fallback_never_momentum "XUSDT").2.2⟩

/-- C3: for every strategy and every input the adjusted stop_loss is
clamped to the per-strategy cap: at least -10 for AGGRESSIVE_PUMP, -12
for BALANCED_PUMP, -15 for MOMENTUM; the clamp (a `max` against the cap
table) runs unconditionally, whatever the volatility branch did. -/
theorem c3_stop_loss_cap_enforced (s : TradingStrategy) (td : TokenData)
    (sc : Scores) (sym : String) :
    maxStopLoss s ≤ (adjust_strategy_parameters s td sc sym).stop_loss ∧
    -10 ≤ (adjust_strategy_parameters .AGGRESSIVE_PUMP td sc sym).stop_loss ∧
    -12 ≤ (adjust_strategy_parameters .BALANCED_PUMP td sc sym).stop_loss ∧
    -15 ≤ (adjust_strategy_parameters .MOMENTUM td sc sym).stop_loss := by
  refine ⟨?_, ?_, ?_, ?_⟩ <;> rw [adjust_stop_loss_eq] <;>
    simp [maxStopLoss, le_max_right]

/-- C4: the adjusted leverage always lies in [1,5]; it is decremented
with floor 1 when risk_score < 40, incremented with ceiling 5 when
risk_score > 70, and equal to the preset's base leverage otherwise. -/
theorem c4_leverage_bounds (s : TradingStrategy) (td : TokenData)
    (sc : Scores) (sym : String) :
    1 ≤ (adjust_strategy_parameters s td sc sym).leverage ∧
    (adjust_strategy_parameters s td sc sym).leverage ≤ 5 ∧
    (risk_score sc < 40 →
      (adjust_strategy_parameters s td sc sym).leverage =
        max 1 ((baseParams s).leverage - 1)) ∧
    (70 < risk_score sc →
      (adjust_strategy_parameters s td sc sym).leverage =
        min 5 ((baseParams s).leverage + 1)) ∧
    (¬ risk_score sc < 40 → ¬ 70 < risk_score sc →
      (adjust_strategy_parameters s td sc sym).leverage =
        (baseParams s).leverage) := by
  have hl := adjust_leverage_eq s td sc sym
  have hbase : (baseParams s).leverage = 3 ∨ (baseParams s).leverage = 5 := by
    cases s <;> simp [baseParams]
  refine ⟨?_, ?_, fun h40 => ?_, fun h70 => ?_, fun h40 h70 => ?_⟩
  · rw [hl]; split_ifs <;> rcases hbase with h | h <;> rw [h] <;> decide
  · rw [hl]; split_ifs <;> rcases hbase with h | h <;> rw [h] <;> decide
  · rw [hl, if_pos h40]
  · have h40 : ¬ risk_score sc < 40 := by linarith
    rw [hl, if_neg h40, if_pos h70]
  · rw [hl, if_neg h40, if_neg h70]

/-- Witness for C4: with all three risk sub-scores at 100 (risk_score
100 > 70), BALANCED_PUMP's base leverage 3 is incremented under the
ceiling. -/
theorem c4_leverage_bounds_witness :
    (adjust_strategy_parameters .BALANCED_PUMP emptyTokenData scoresHigh
      "XUSDT").leverage = min 5 ((baseParams .BALANCED_PUMP).leverage + 1) :=
  (c4_leverage_bounds .BALANCED_PUMP emptyTokenData scoresHigh "XUSDT").2.2.2.1
    (by norm_num [risk_score, scoresHigh])

/-- C10: for every strategy and input, the adjusted stop_loss is strictly
negative: the base stop-losses are negative, the volatility multipliers
0.9 and 1.1 preserve the sign, and the final clamp is a `max` against a
negative cap. -/
theorem c10_stop_loss_strictly_negative (s : TradingStrategy) (td : TokenData)
    (sc : Scores) (sym : String) :
    (adjust_strategy_parameters s td sc sym).stop_loss < 0 := by
  rw [adjust_stop_loss_eq, max_lt_iff]
  constructor
  · split_ifs <;> cases s <;> norm_num [baseParams]
  · cases s <;> norm_num [maxStopLoss]

/-- C9: the Parameter Adjuster is pure: the preset store is returned
unchanged (all writes target the copy made by `strategy.value.copy()`), a
second call with identical inputs on the resulting store yields an
identical result, the store-passing run from the base presets agrees with
the plain function, and the output take-profit list is always the
strategy's immutable base list under a single positive scale factor —
never an accumulation. -/
theorem c9_adjuster_pure (store : PresetStore) (s : TradingStrategy)
    (td : TokenData) (sc : Scores) (sym : String) :
    (adjust_strategy_parameters_st store s td sc sym).2 = store ∧
    (adjust_strategy_parameters_st
        ((adjust_strategy_parameters_st store s td sc sym).2) s td sc sym).1 =
      (adjust_strategy_parameters_st store s td sc sym).1 ∧
    (adjust_strategy_parameters_st baseStore s td sc sym).1 =
      adjust_strategy_parameters s td sc sym ∧
    (∃ c : ℚ, 0 < c ∧
      (adjust_strategy_parameters s td sc sym).take_profits =
        (baseParams s).take_profits.map (fun x => x * c)) := by
  refine ⟨rfl, rfl, rfl, ?_⟩
  rw [adjust_take_profits_eq]
  split_ifs
  · exact ⟨1.2, by norm_num, rfl⟩
  · exact ⟨0.8, by norm_num, rfl⟩
  · exact ⟨1, by norm_num, by simp⟩

/-- C7: the adjuster multiplies every take-profit target by exactly 1.2
when hype > 80, by exactly 0.8 when hype < 30, and leaves the list
unchanged otherwise; the lists produced at hype = 90 and hype = 10 from
the same preset are in exact elementwise ratio 1.5, and the strictly
increasing order of the targets is preserved. -/
theorem c7_take_profit_scaling (s : TradingStrategy) (td td₁ td₂ : TokenData)
    (sc sc₁ sc₂ : Scores) (sym sym₁ sym₂ : String) :
    (80 < get_hype_indicator td sym →
      (adjust_strategy_parameters s td sc sym).take_profits =
        (baseParams s).take_profits.map (fun x => x * 1.2)) ∧
    (get_hype_indicator td sym < 30 →
      (adjust_strategy_parameters s td sc sym).take_profits =
        (baseParams s).take_profits.map (fun x => x * 0.8)) ∧
    (¬ 80 < get_hype_indicator td sym → ¬ get_hype_indicator td sym < 30 →
      (adjust_strategy_parameters s td sc sym).take_profits =
        (baseParams s).take_profits) ∧
    (get_hype_indicator td₁ sym₁ = 90 → get_hype_indicator td₂ sym₂ = 10 →
      (adjust_strategy_parameters s td₁ sc₁ sym₁).take_profits =
        ((adjust_strategy_parameters s td₂ sc₂ sym₂).take_profits).map
          (fun x => x * 1.5)) ∧
    List.Pairwise (· < ·) ((adjust_strategy_parameters s td sc sym).take_profits) := by
  refine ⟨fun h => ?_, fun h => ?_, fun h1 h2 => ?_, fun h90 h10 => ?_, ?_⟩
  · rw [adjust_take_profits_eq, if_pos h]
  · have h' : ¬ 80 < get_hype_indicator td sym := by linarith
    rw [adjust_take_profits_eq, if_neg h', if_pos h]
  · rw [adjust_take_profits_eq, if_neg h1, if_neg h2]
  · rw [adjust_take_profits_eq, adjust_take_profits_eq, h90, h10]
    cases s <;> norm_num [baseParams]
  · rw [adjust_take_profits_eq]
    split_ifs <;> cases s <;> norm_num [baseParams, List.pairwise_cons]

/-- Witness for C7: hype 90 versus hype 10 over the BALANCED_PUMP preset
gives take-profit lists in exact ratio 1.5. -/
theorem c7_take_profit_scaling_witness :
    (adjust_strategy_parameters .BALANCED_PUMP tdHype90 {} "XUSDT").take_profits =
      ((adjust_strategy_parameters .BALANCED_PUMP tdHype10 {} "XUSDT").take_profits).map
        (fun x => x * 1.5) :=
  (c7_take_profit_scaling .BALANCED_PUMP emptyTokenData tdHype90 tdHype10 {} {} {}
      "XUSDT" "XUSDT" "XUSDT").2.2.2.1
    (by simp [get_hype_indicator, tdHype90, listMean,
          show isMeme "XUSDT" = false from by decide])
    (by simp [get_hype_indicator, tdHype10, listMean,
          show isMeme "XUSDT" = false from by decide])

/-- C5 counterexample: with a present market bag whose sub-score
legitimately computes to 0 (all fields zero) and a social bag of
sub-score 20, the composite is (50+20+5·50)/7 = 320/7 — the zero
sub-score was replaced by 50 by the falsy `or 50` — and not the claimed
mean (0+20+5·50)/7. -/
theorem c5_counterexample_zero_subscore :
    calculate_market_score (some zeroMarketData) = some 0 ∧
    calculate_social_score (some socialCommunityOnly) = some 20 ∧
    totalScore tdMarketSocial = 320 / 7 ∧
    totalScore tdMarketSocial ≠ (0 + 20 + 50 + 50 + 50 + 50 + 50) / 7 := by
  norm_num [calculate_market_score, calculate_social_score, totalScore,
    computeScores, tdMarketSocial, zeroMarketData, socialCommunityOnly, orFifty]

/-- C5 (amended): the Composite Scorer substitutes 50 both for an absent
or failed source and for a present source whose sub-score computes to
exactly 0 (Python's falsy `or 50`); with only market and social bags
present the composite equals the mean of the two `orFifty`-filtered
sub-scores and five neutral 50s. -/
theorem c5_composite_partial_blend (md : MarketData) (sm : SocialMetrics) :
    orFifty none = 50 ∧ orFifty (some 0) = 50 ∧
    totalScore { market_data := some md, social_metrics := some sm } =
      (orFifty (calculate_market_score (some md)) +
        orFifty (calculate_social_score (some sm)) + 50 + 50 + 50 + 50 + 50) / 7 := by
  refine ⟨by simp [orFifty], by simp [orFifty], ?_⟩
  simp [totalScore, computeScores]

/-- C6 counterexample: the social sub-score at documented-range inputs
(sentiment = -1, other fields 0) is -3/10 < 0, and the historical
sub-score at avg_roi_score = -100 is -30 < 0 — both outside [0,100]. -/
theorem c6_counterexample_unclamped_subscores :
    calculate_social_score (some socialNegSentiment) = some (-(3/10)) ∧
    (-(3/10) : ℚ) < 0 ∧
    calculate_historical_score (some histNegRoi) = some (-30) ∧
    (-30 : ℚ) < 0 := by
  norm_num [calculate_social_score, calculate_historical_score, socialNegSentiment,
    histNegRoi]

/-- C6 (amended): the sub-scorers that clamp their components — market,
dex, github, trends — return values in [0,100] whenever their inputs are
in the documented (non-negative) ranges; the unclamped social and
historical scorers do not share this bound. -/
theorem c6_clamped_subscores_in_range (md : MarketData) (dd : DexMetrics)
    (gd : GithubMetrics) (tr : TrendsMetrics)
    (hmc : 0 ≤ md.market_cap) (hvo : 0 ≤ md.volume_24h)
    (hex : 0 ≤ md.exchanges_listed)
    (hli : 0 ≤ dd.liquidity.getD 0) (hho : 0 ≤ dd.holders.getD 0)
    (hcw : 0 ≤ gd.commits_per_week.getD 0) (hac : 0 ≤ gd.active_contributors.getD 0)
    (hio : 0 ≤ tr.interest_over_time.getD 0) :
    (∀ v, calculate_market_score (some md) = some v → 0 ≤ v ∧ v ≤ 100) ∧
    (∀ v, calculate_dex_score (some dd) = some v → 0 ≤ v ∧ v ≤ 100) ∧
    (∀ v, calculate_github_score (some gd) = some v → 0 ≤ v ∧ v ≤ 100) ∧
    (∀ v, calculate_trends_score (some tr) = some v → 0 ≤ v ∧ v ≤ 100) := by
  refine ⟨?_, ?_, ?_, ?_⟩ <;> intro v hv
  · simp only [calculate_market_score, Option.some.injEq] at hv
    subst hv
    have a1 : (0:ℚ) ≤ min (md.market_cap / 1000000) 100 :=
      le_min (div_nonneg hmc (by norm_num)) (by norm_num)
    have a2 : min (md.market_cap / 1000000) 100 ≤ 100 := min_le_right _ _
    have b1 : (0:ℚ) ≤ min (md.volume_24h / 100000) 100 :=
      le_min (div_nonneg hvo (by norm_num)) (by norm_num)
    have b2 : min (md.volume_24h / 100000) 100 ≤ 100 := min_le_right _ _
    have d1 : (0:ℚ) ≤ min |md.price_change_24h| 100 :=
      le_min (abs_nonneg _) (by norm_num)
    have d2 : min |md.price_change_24h| 100 ≤ 100 := min_le_right _ _
    have e1 : (0:ℚ) ≤ min (md.exchanges_listed / 5) 20 :=
      le_min (div_nonneg hex (by norm_num)) (by norm_num)
    have e2 : min (md.exchanges_listed / 5) 20 ≤ 20 := min_le_right _ _
    constructor <;> nlinarith
  · simp only [calculate_dex_score, Option.some.injEq] at hv
    subst hv
    have a1 : (0:ℚ) ≤ min (dd.liquidity.getD 0 / 100000) 100 :=
      le_min (div_nonneg hli (by norm_num)) (by norm_num)
    have a2 : min (dd.liquidity.getD 0 / 100000) 100 ≤ 100 := min_le_right _ _
    have b1 : (0:ℚ) ≤ min (dd.holders.getD 0 / 1000) 100 :=
      le_min (div_nonneg hho (by norm_num)) (by norm_num)
    have b2 : min (dd.holders.getD 0 / 1000) 100 ≤ 100 := min_le_right _ _
    have d1 : (0:ℚ) ≤ min |dd.priceChange24h.getD 0| 100 :=
      le_min (abs_nonneg _) (by norm_num)
    have d2 : min |dd.priceChange24h.getD 0| 100 ≤ 100 := min_le_right _ _
    constructor <;> nlinarith
  · simp only [calculate_github_score, Option.some.injEq] at hv
    subst hv
    have a1 : (0:ℚ) ≤ min (gd.commits_per_week.getD 0 / 50) 100 :=
      le_min (div_nonneg hcw (by norm_num)) (by norm_num)
    have a2 : min (gd.commits_per_week.getD 0 / 50) 100 ≤ 100 := min_le_right _ _
    have b1 : (0:ℚ) ≤ min (gd.active_contributors.getD 0 / 20) 100 :=
      le_min (div_nonneg hac (by norm_num)) (by norm_num)
    have b2 : min (gd.active_contributors.getD 0 / 20) 100 ≤ 100 := min_le_right _ _
    constructor <;> nlinarith
  · simp only [calculate_trends_score, Option.some.injEq] at hv
    subst hv
    exact ⟨le_min hio (by norm_num), min_le_right _ _⟩

/-- Witness for C6 (amended): the all-zero (or all-absent) bags satisfy
the range hypotheses and the four bounds. -/
theorem c6_clamped_subscores_in_range_witness :
    (∀ v, calculate_market_score (some ({} : MarketData)) = some v →
      0 ≤ v ∧ v ≤ 100) ∧
    (∀ v, calculate_dex_score (some ({} : DexMetrics)) = some v →
      0 ≤ v ∧ v ≤ 100) ∧
    (∀ v, calculate_github_score (some ({} : GithubMetrics)) = some v →
      0 ≤ v ∧ v ≤ 100) ∧
    (∀ v, calculate_trends_score (some ({} : TrendsMetrics)) = some v →
      0 ≤ v ∧ v ≤ 100) :=
  c6_clamped_subscores_in_range {} {} {} {} (le_refl 0) (le_refl 0) (le_refl 0)
    (le_refl 0) (le_refl 0) (le_refl 0) (le_refl 0) (le_refl 0)
